import Mathlib

/-!
Shallow embedding of the whisper-proxy service (`src/app.py`): a Flask app
that validates an uploaded audio file, resolves a Hugging Face bearer token,
forwards the bytes to the HF inference endpoint and normalizes the JSON
response into a uniform success/error envelope.

Python values parsed from JSON are modelled by the `Json` inductive
(numeric literals are modelled as integers; floating point is out of scope).
Python dicts are modelled as association lists keyed by the first occurrence.
The outbound HTTP world is an oracle `Except String UpstreamResponse`:
`.error e` is an exception raised by `requests.post` (e.g. a timeout) with
message `e`, `.ok r` a received response whose `body_json` field is the
outcome of `response.json()` (`.error m` = a JSON decode error with message
`m`). The handler returns, besides the HTTP response, the list of outbound
calls it performed, so that call-counting properties are structural.
-/

namespace WhisperProxy

/-- Python values as produced by parsing JSON (`response.json()`). -/
inductive Json where
  | null : Json
  | bool : Bool → Json
  | num : Int → Json
  | str : String → Json
  | arr : List Json → Json
  | obj : List (String × Json) → Json
  deriving Repr

/-- Python truthiness of an optional string (`None`, `""` falsy). -/
def truthy : Option String → Bool
  | none => false
  | some s => !(s = "")

/-- Python repr of a string: quote preference and escaping of the quote
character and backslash (control-character escapes are out of scope). -/
def pyReprString (s : String) : String :=
  let sq : Char := Char.ofNat 39
  let dq : Char := Char.ofNat 34
  let bs : Char := Char.ofNat 92
  let esc : Char → List Char → List Char := fun q cs =>
    cs.foldr (fun c acc =>
      if c = bs then bs :: bs :: acc
      else if c = q then bs :: q :: acc
      else c :: acc) []
  if s.toList.contains sq && !(s.toList.contains dq) then
    String.mk (dq :: esc dq s.toList ++ [dq])
  else
    String.mk (sq :: esc sq s.toList ++ [sq])

mutual

/-- Python `repr()` on parsed-JSON values. -/
def pyRepr : Json → String
  | .null => "None"
  | .bool true => "True"
  | .bool false => "False"
  | .num n => toString n
  | .str s => pyReprString s
  | .arr elems => "[" ++ String.intercalate ", " (pyReprList elems) ++ "]"
  | .obj fields => "\x7b" ++ String.intercalate ", " (pyReprFields fields) ++ "\x7d"

/-- `repr` of each element of a Python list. -/
def pyReprList : List Json → List String
  | [] => []
  | j :: rest => pyRepr j :: pyReprList rest

/-- `repr` of each `key: value` entry of a Python dict. -/
def pyReprFields : List (String × Json) → List String
  | [] => []
  | (k, v) :: rest => (pyReprString k ++ ": " ++ pyRepr v) :: pyReprFields rest

end

/-- Python `str()` on parsed-JSON values: identity on strings, `repr`-like
otherwise (`str(True) = "True"`, `str(None) = "None"`, `str(5) = "5"`). -/
def pyStr : Json → String
  | .str s => s
  | j => pyRepr j

/-- `HF_API_URL` of `src/app.py`. -/
def HF_API_URL : String :=
  "https://api-inference.huggingface.co/models/openai/whisper-small"

/-- `ALLOWED_EXTENSIONS` of `src/app.py` (a Python set literal; modelled as
the list in source order — no claim depends on iteration order). -/
def ALLOWED_EXTENSIONS : List String :=
  ["mp3", "wav", "mp4", "m4a", "flac", "ogg", "webm"]

/-- `filename.rsplit(".", 1)[1]`: the part of the filename after its last
dot (total here; in the source it is only evaluated when a dot exists). -/
def extAfterLastDot (filename : String) : String :=
  String.mk ((filename.toList.reverse.takeWhile (fun c => !(c = Char.ofNat 46))).reverse)

/-- ASCII lowercasing of one character (`str.lower()` restricted to the
ASCII range, which is all the membership test against the ASCII extension
set can be sensitive to). -/
def lowerChar (c : Char) : Char :=
  if 65 ≤ c.toNat ∧ c.toNat ≤ 90 then Char.ofNat (c.toNat + 32) else c

/-- `s.lower()` (ASCII). -/
def lowerString (s : String) : String :=
  String.mk (s.toList.map lowerChar)

/-- `allowed_file` of `src/app.py`:
`"." in filename and filename.rsplit(".", 1)[1].lower() in ALLOWED_EXTENSIONS`. -/
def allowed_file (filename : String) : Bool :=
  filename.toList.contains (Char.ofNat 46) &&
    ALLOWED_EXTENSIONS.contains (lowerString (extAfterLastDot filename))

/-- `result.get("text", "")` on a parsed-JSON dict. -/
def dictGetText (fields : List (String × Json)) : Json :=
  (fields.lookup "text").getD (Json.str "")

/-- Lines 116-120 of `src/app.py`: normalization of a 200 response body.
`text = ""`, overwritten when the body is a dict (`result.get("text", "")`)
or a non-empty list (first element: dict -> `.get("text", "")`, otherwise
`str(result[0])`). -/
def normalize_result (result : Json) : Json :=
  match result with
  | .obj fields => dictGetText fields
  | .arr (first :: _) =>
    match first with
    | .obj fields => dictGetText fields
    | v => Json.str (pyStr v)
  | _ => Json.str ""

/-- Error message strings of `src/app.py`, verbatim. -/
def NO_FILE_ERROR : String :=
  "No audio file provided. Send as multipart/form-data with field name \"audio\""

/-- Error for an empty filename. -/
def NO_FILE_SELECTED_ERROR : String := "No file selected"

/-- Error for a disallowed extension (the source interpolates the extension
set in its own iteration order; modelled in source order). -/
def FILE_TYPE_ERROR : String :=
  "File type not supported. Allowed: " ++ String.intercalate ", " ALLOWED_EXTENSIONS

/-- Error when no credential resolves. -/
def TOKEN_REQUIRED_ERROR : String :=
  "Hugging Face token required. Set HF_TOKEN environment variable or pass hf_token in form data"

/-- Fixed message replacing an upstream 401 body. -/
def INVALID_TOKEN_ERROR : String := "Invalid Hugging Face token"

/-- Fixed message replacing an upstream 503 body. -/
def MODEL_LOADING_ERROR : String := "Model is loading, please try again in a few seconds"

/-- An uploaded multipart file: original filename plus content bytes. -/
structure UploadedFile where
  filename : String
  content : List Nat
  deriving Repr

/-- The parts of a Flask request the handler reads: `request.files` and
`request.form` (first occurrence wins on lookup, as in Flask MultiDict). -/
structure HttpRequest where
  files : List (String × UploadedFile)
  form : List (String × String)
  deriving Repr

/-- An upstream HTTP response: status code, raw body text, and the outcome
of `response.json()` on that body (`.error m` = JSON decode failure). -/
structure UpstreamResponse where
  status_code : Nat
  text : String
  body_json : Except String Json
  deriving Repr

/-- One outbound `requests.post` call as issued by the handler. -/
structure OutboundCall where
  url : String
  token : String
  data : List Nat
  timeout : Nat
  deriving Repr

/-- The response the handler returns: HTTP status plus the `jsonify` body
as an ordered key/value list. -/
structure ApiResponse where
  status : Nat
  body : List (String × Json)
  deriving Repr

/-- Lines 96-149 of `src/app.py`: the part of `transcribe_audio` after a
credential has been resolved. One `requests.post(HF_API_URL, ...,
timeout=30)` with the resolved bearer token and the file bytes, whose
outcome is the oracle `net`; a 200 response is parsed and normalized, a
non-200 status is mapped to an error envelope forwarding the upstream
status, and any raised exception (the post itself, or `response.json()`)
is caught by the handler's `except Exception` and returned as a 500 whose
error string is the exception text. -/
def forward_to_hf (token : String) (audio_data : List Nat)
    (net : Except String UpstreamResponse) : ApiResponse × List OutboundCall :=
  let call : OutboundCall := ⟨HF_API_URL, token, audio_data, 30⟩
  match net with
  | .error e =>
    (⟨500, [("success", Json.bool false), ("error", Json.str e)]⟩, [call])
  | .ok response =>
    if response.status_code = 200 then
      match response.body_json with
      | .error e =>
        (⟨500, [("success", Json.bool false), ("error", Json.str e)]⟩, [call])
      | .ok result =>
        (⟨200, [("success", Json.bool true),
                ("text", normalize_result result),
                ("model", Json.str "openai/whisper-small"),
                ("backend", Json.str "huggingface"),
                ("platform", Json.str "Railway.app"),
                ("cost", Json.str "FREE")]⟩, [call])
    else
      let error_msg : String :=
        if response.status_code = 401 then INVALID_TOKEN_ERROR
        else if response.status_code = 503 then MODEL_LOADING_ERROR
        else response.text
      (⟨response.status_code,
        [("success", Json.bool false), ("error", Json.str error_msg),
         ("status_code", Json.num response.status_code)]⟩, [call])

/-- `transcribe_audio` of `src/app.py` (lines 62-149). `HF_TOKEN` is the
environment token (`os.environ.get`), `net` the oracle for the single
`requests.post` call. Returns the response and the list of outbound calls
performed. The `try/except Exception` wrapping the body is modelled by the
two exception sources that exist in the pipeline: the outbound call raising
(`net = .error e`) and `response.json()` raising (`body_json = .error e`);
both return a 500 envelope with the exception text (see `forward_to_hf`). -/
def transcribe_audio (HF_TOKEN : Option String) (req : HttpRequest)
    (net : Except String UpstreamResponse) : ApiResponse × List OutboundCall :=
  match req.files.lookup "audio" with
  | none =>
    (⟨400, [("success", Json.bool false), ("error", Json.str NO_FILE_ERROR)]⟩, [])
  | some audio_file =>
    if audio_file.filename = "" then
      (⟨400, [("success", Json.bool false), ("error", Json.str NO_FILE_SELECTED_ERROR)]⟩, [])
    else if allowed_file audio_file.filename = false then
      (⟨400, [("success", Json.bool false), ("error", Json.str FILE_TYPE_ERROR)]⟩, [])
    else
      let token : Option String :=
        if truthy HF_TOKEN then HF_TOKEN else req.form.lookup "hf_token"
      if truthy token = false then
        (⟨400, [("success", Json.bool false), ("error", Json.str TOKEN_REQUIRED_ERROR),
                ("get_token", Json.str "https://huggingface.co/settings/tokens")]⟩, [])
      else
        forward_to_hf (token.getD "") audio_file.content net

/-- `health_check` of `src/app.py` (lines 50-60): `has_token` is
`bool(HF_TOKEN)`, i.e. the truthiness of the environment token. -/
def health_check (HF_TOKEN : Option String) : List (String × Json) :=
  [("status", Json.str "healthy"),
   ("type", Json.str "proxy"),
   ("backend", Json.str "huggingface"),
   ("has_token", Json.bool (truthy HF_TOKEN)),
   ("platform", Json.str "Railway.app"),
   ("version", Json.str "1.0.0")]

/-- Whether a parsed-JSON value is a Python dict. -/
def isObjJson : Json → Bool
  | .obj _ => true
  | _ => false

/-- Whether a parsed-JSON value is a Python list. -/
def isArrJson : Json → Bool
  | .arr _ => true
  | _ => false

/-- Whether a parsed-JSON value is a plain (scalar) value: string, number,
boolean or null — neither a sequence nor an object. -/
def isPlainJson : Json → Bool
  | .null => true
  | .bool _ => true
  | .num _ => true
  | .str _ => true
  | _ => false

/-- Normalization as literally worded by the specification claim (for
refinement comparison with `normalize_result`): the `text` field when the
body is an object; the first element resolved when the body is a non-empty
sequence OF OBJECTS or a non-empty sequence OF PLAIN VALUES (the whole
sequence homogeneous, as the claim words it); the empty string for every
other shape. -/
def claimed_normalize (result : Json) : Json :=
  match result with
  | .obj fields => dictGetText fields
  | .arr (Json.obj fields :: rest) =>
    if rest.all isObjJson then dictGetText fields else Json.str ""
  | .arr (v :: rest) =>
    if isPlainJson v && rest.all isPlainJson then Json.str (pyStr v) else Json.str ""
  | _ => Json.str ""


/-- Substring test on strings (does `hay` contain `pat` as a contiguous
substring), via character lists. -/
def hasSubstring (hay pat : List Char) : Bool :=
  match hay with
  | [] => pat.isEmpty
  | _ :: rest => pat.isPrefixOf hay || hasSubstring rest pat

/-- `str_contains s t`: Python `t in s` on strings. -/
def str_contains (s t : String) : Bool :=
  hasSubstring s.toList t.toList

/-- The envelope invariant worded by the specification: a success body has
`success = true`, a `text` field and no `error` field; a failure body has
`success = false`, an `error` field and no `text` field. -/
def envelopeOk (body : List (String × Json)) : Prop :=
  (body.lookup "success" = some (Json.bool true) ∧
     (body.lookup "text").isSome = true ∧ body.lookup "error" = none) ∨
  (body.lookup "success" = some (Json.bool false) ∧
     (body.lookup "error").isSome = true ∧ body.lookup "text" = none)

/-- The token `transcribe_audio` resolves: the environment token when
truthy, otherwise the form token (line 88 of `src/app.py`). -/
def resolved_token (HF_TOKEN : Option String) (req : HttpRequest) : Option String :=
  if truthy HF_TOKEN then HF_TOKEN else req.form.lookup "hf_token"

/-- Helper: `forward_to_hf` always records exactly its one outbound call. -/
theorem forward_to_hf_calls (token : String) (data : List Nat)
    (net : Except String UpstreamResponse) :
    (forward_to_hf token data net).2 = [⟨HF_API_URL, token, data, 30⟩] := by
  unfold forward_to_hf
  rcases net with e | resp
  · rfl
  · by_cases h : resp.status_code = 200
    · rcases hj : resp.body_json with m | j <;> simp [h, hj]
    · simp [h]

/-- Helper: on a request that passes all validation with a truthy resolved
token, the handler is exactly `forward_to_hf` on the resolved credential. -/
theorem transcribe_audio_valid (env : Option String) (req : HttpRequest)
    (net : Except String UpstreamResponse) (f : UploadedFile)
    (hf : req.files.lookup "audio" = some f) (hn : f.filename ≠ "")
    (ha : allowed_file f.filename = true)
    (ht : truthy (resolved_token env req) = true) :
    transcribe_audio env req net
      = forward_to_hf ((resolved_token env req).getD "") f.content net := by
  unfold transcribe_audio resolved_token at *
  rw [hf]
  simp [hn, ha, ht]

/-- Helper: a validation failure before the credential check: no file
field. -/
theorem transcribe_audio_no_file (env : Option String) (req : HttpRequest)
    (net : Except String UpstreamResponse)
    (hf : req.files.lookup "audio" = none) :
    transcribe_audio env req net
      = (⟨400, [("success", Json.bool false), ("error", Json.str NO_FILE_ERROR)]⟩, []) := by
  unfold transcribe_audio
  rw [hf]

/-- Helper: empty filename branch. -/
theorem transcribe_audio_empty_name (env : Option String) (req : HttpRequest)
    (net : Except String UpstreamResponse) (f : UploadedFile)
    (hf : req.files.lookup "audio" = some f) (hn : f.filename = "") :
    transcribe_audio env req net
      = (⟨400, [("success", Json.bool false), ("error", Json.str NO_FILE_SELECTED_ERROR)]⟩, []) := by
  unfold transcribe_audio
  rw [hf]
  simp [hn]

/-- Helper: disallowed extension branch. -/
theorem transcribe_audio_bad_ext (env : Option String) (req : HttpRequest)
    (net : Except String UpstreamResponse) (f : UploadedFile)
    (hf : req.files.lookup "audio" = some f) (hn : f.filename ≠ "")
    (ha : allowed_file f.filename = false) :
    transcribe_audio env req net
      = (⟨400, [("success", Json.bool false), ("error", Json.str FILE_TYPE_ERROR)]⟩, []) := by
  unfold transcribe_audio
  rw [hf]
  simp [hn, ha]

/-- Helper: no resolvable credential branch. -/
theorem transcribe_audio_no_token (env : Option String) (req : HttpRequest)
    (net : Except String UpstreamResponse) (f : UploadedFile)
    (hf : req.files.lookup "audio" = some f) (hn : f.filename ≠ "")
    (ha : allowed_file f.filename = true)
    (ht : truthy (resolved_token env req) = false) :
    transcribe_audio env req net
      = (⟨400, [("success", Json.bool false), ("error", Json.str TOKEN_REQUIRED_ERROR),
                ("get_token", Json.str "https://huggingface.co/settings/tokens")]⟩, []) := by
  unfold transcribe_audio resolved_token at *
  rw [hf]
  simp [hn, ha, ht]

/-- Helper: result when the outbound post raises (e.g. the 30-unit timeout). -/
theorem forward_to_hf_net_error (token : String) (data : List Nat) (e : String) :
    forward_to_hf token data (Except.error e)
      = (⟨500, [("success", Json.bool false), ("error", Json.str e)]⟩,
         [⟨HF_API_URL, token, data, 30⟩]) := rfl

/-- Helper: result on a 200 upstream response whose body fails to parse. -/
theorem forward_to_hf_bad_json (token : String) (data : List Nat)
    (resp : UpstreamResponse) (m : String)
    (h200 : resp.status_code = 200) (hj : resp.body_json = Except.error m) :
    forward_to_hf token data (Except.ok resp)
      = (⟨500, [("success", Json.bool false), ("error", Json.str m)]⟩,
         [⟨HF_API_URL, token, data, 30⟩]) := by
  unfold forward_to_hf
  simp [h200, hj]

/-- Helper: result on a 200 upstream response with a parsed body. -/
theorem forward_to_hf_ok (token : String) (data : List Nat)
    (resp : UpstreamResponse) (j : Json)
    (h200 : resp.status_code = 200) (hj : resp.body_json = Except.ok j) :
    forward_to_hf token data (Except.ok resp)
      = (⟨200, [("success", Json.bool true),
                ("text", normalize_result j),
                ("model", Json.str "openai/whisper-small"),
                ("backend", Json.str "huggingface"),
                ("platform", Json.str "Railway.app"),
                ("cost", Json.str "FREE")]⟩,
         [⟨HF_API_URL, token, data, 30⟩]) := by
  unfold forward_to_hf
  simp [h200, hj]

/-- Helper: result on a non-200 upstream response. -/
theorem forward_to_hf_non_200 (token : String) (data : List Nat)
    (resp : UpstreamResponse) (h200 : resp.status_code ≠ 200) :
    forward_to_hf token data (Except.ok resp)
      = (⟨resp.status_code,
          [("success", Json.bool false),
           ("error", Json.str (if resp.status_code = 401 then INVALID_TOKEN_ERROR
              else if resp.status_code = 503 then MODEL_LOADING_ERROR
              else resp.text)),
           ("status_code", Json.num resp.status_code)]⟩,
         [⟨HF_API_URL, token, data, 30⟩]) := by
  unfold forward_to_hf
  simp [h200]

/-- Helper: every body `forward_to_hf` produces satisfies the envelope
invariant. -/
theorem forward_to_hf_envelope (token : String) (data : List Nat)
    (net : Except String UpstreamResponse) :
    envelopeOk (forward_to_hf token data net).1.body := by
  rcases net with e | resp
  · rw [forward_to_hf_net_error]
    exact Or.inr ⟨rfl, rfl, rfl⟩
  · by_cases h200 : resp.status_code = 200
    · rcases hj : resp.body_json with m | j
      · rw [forward_to_hf_bad_json token data resp m h200 hj]
        exact Or.inr ⟨rfl, rfl, rfl⟩
      · rw [forward_to_hf_ok token data resp j h200 hj]
        exact Or.inl ⟨rfl, rfl, rfl⟩
    · rw [forward_to_hf_non_200 token data resp h200]
      exact Or.inr ⟨rfl, rfl, rfl⟩

/-- Claim C4: for every uploaded filename that contains no dot, or whose
suffix after the last dot, compared case-insensitively, is not one of
mp3, wav, mp4, m4a, flac, ogg, webm, `/transcribe` answers HTTP 400 with a
failure envelope and performs no outbound call (for every environment token
and every state of the network). -/
theorem C4_disallowed_extension_rejected (env : Option String)
    (req : HttpRequest) (net : Except String UpstreamResponse)
    (f : UploadedFile) (hf : req.files.lookup "audio" = some f)
    (h : f.filename.toList.contains (Char.ofNat 46) = false ∨
         ALLOWED_EXTENSIONS.contains (lowerString (extAfterLastDot f.filename)) = false) :
    (transcribe_audio env req net).1.status = 400 ∧
    (transcribe_audio env req net).1.body.lookup "success" = some (Json.bool false) ∧
    ((transcribe_audio env req net).1.body.lookup "error").isSome = true ∧
    (transcribe_audio env req net).2 = [] := by
  have hna : allowed_file f.filename = false := by
    unfold allowed_file
    rcases h with h | h
    · rw [h, Bool.false_and]
    · rw [h, Bool.and_false]
  by_cases he : f.filename = ""
  · rw [transcribe_audio_empty_name env req net f hf he]
    exact ⟨rfl, rfl, rfl, rfl⟩
  · rw [transcribe_audio_bad_ext env req net f hf he hna]
    exact ⟨rfl, rfl, rfl, rfl⟩

/-- Claim C4 witness: a `.txt` upload is rejected with 400 and no call. -/
theorem C4_disallowed_extension_rejected_witness :
    (transcribe_audio (some "tok")
       ⟨[("audio", ⟨"notes.txt", [1, 2]⟩)], []⟩ (Except.error "net down")).1.status = 400 ∧
    (transcribe_audio (some "tok")
       ⟨[("audio", ⟨"notes.txt", [1, 2]⟩)], []⟩ (Except.error "net down")).2 = [] := by
  have h := C4_disallowed_extension_rejected (some "tok")
    ⟨[("audio", ⟨"notes.txt", [1, 2]⟩)], []⟩ (Except.error "net down")
    ⟨"notes.txt", [1, 2]⟩ rfl (Or.inr (by decide))
  exact ⟨h.1, h.2.2.2⟩

/-- Claim C5: the validation checks of `/transcribe` apply in order with
the first match winning: missing file field, then empty filename, then
disallowed extension, each answered 400 with its own message and no
outbound call, independently of every later concern (credential, network).
The backend-unavailable check of the specification is vacuous in this
remote-proxy variant: there is no local backend that could fail to
initialize, so the earliest check that can match in the code is the
missing-file one. -/
theorem C5_validation_order (env : Option String) (req : HttpRequest)
    (net : Except String UpstreamResponse) :
    (req.files.lookup "audio" = none →
      transcribe_audio env req net
        = (⟨400, [("success", Json.bool false), ("error", Json.str NO_FILE_ERROR)]⟩, [])) ∧
    (∀ f, req.files.lookup "audio" = some f → f.filename = "" →
      transcribe_audio env req net
        = (⟨400, [("success", Json.bool false), ("error", Json.str NO_FILE_SELECTED_ERROR)]⟩, [])) ∧
    (∀ f, req.files.lookup "audio" = some f → f.filename ≠ "" →
      allowed_file f.filename = false →
      transcribe_audio env req net
        = (⟨400, [("success", Json.bool false), ("error", Json.str FILE_TYPE_ERROR)]⟩, [])) :=
  ⟨fun h => transcribe_audio_no_file env req net h,
   fun f hf hn => transcribe_audio_empty_name env req net f hf hn,
   fun f hf hn ha => transcribe_audio_bad_ext env req net f hf hn ha⟩

/-- Claim C5 witness: the three checks at concrete requests; the empty
filename (which also has no valid extension) gets the empty-filename error,
exhibiting first-match-wins. -/
theorem C5_validation_order_witness :
    transcribe_audio none ⟨[], [("hf_token", "t")]⟩ (Except.error "x")
      = (⟨400, [("success", Json.bool false), ("error", Json.str NO_FILE_ERROR)]⟩, []) ∧
    transcribe_audio none ⟨[("audio", ⟨"", [1]⟩)], [("hf_token", "t")]⟩ (Except.error "x")
      = (⟨400, [("success", Json.bool false), ("error", Json.str NO_FILE_SELECTED_ERROR)]⟩, []) ∧
    transcribe_audio none ⟨[("audio", ⟨"notes.txt", [1]⟩)], [("hf_token", "t")]⟩ (Except.error "x")
      = (⟨400, [("success", Json.bool false), ("error", Json.str FILE_TYPE_ERROR)]⟩, []) :=
  ⟨(C5_validation_order none ⟨[], [("hf_token", "t")]⟩ (Except.error "x")).1 rfl,
   (C5_validation_order none ⟨[("audio", ⟨"", [1]⟩)], [("hf_token", "t")]⟩
      (Except.error "x")).2.1 ⟨"", [1]⟩ rfl rfl,
   (C5_validation_order none ⟨[("audio", ⟨"notes.txt", [1]⟩)], [("hf_token", "t")]⟩
      (Except.error "x")).2.2 ⟨"notes.txt", [1]⟩ rfl (by decide) (by decide)⟩

/-- Claim C6: every response `/transcribe` produces satisfies the envelope
invariant: success bodies carry `success = true`, a `text` field and no
`error` field; failure bodies carry `success = false`, an `error` field and
no `text` field. -/
theorem C6_envelope_invariant (env : Option String) (req : HttpRequest)
    (net : Except String UpstreamResponse) :
    envelopeOk (transcribe_audio env req net).1.body := by
  rcases hl : req.files.lookup "audio" with _ | f
  · rw [transcribe_audio_no_file env req net hl]
    exact Or.inr ⟨rfl, rfl, rfl⟩
  · by_cases he : f.filename = ""
    · rw [transcribe_audio_empty_name env req net f hl he]
      exact Or.inr ⟨rfl, rfl, rfl⟩
    · by_cases ha : allowed_file f.filename = true
      · by_cases ht : truthy (resolved_token env req) = true
        · rw [transcribe_audio_valid env req net f hl he ha ht]
          exact forward_to_hf_envelope _ f.content net
        · rw [transcribe_audio_no_token env req net f hl he ha
            (Bool.not_eq_true _ ▸ ht : truthy (resolved_token env req) = false)]
          exact Or.inr ⟨rfl, rfl, rfl⟩
      · rw [transcribe_audio_bad_ext env req net f hl he
            (Bool.not_eq_true _ ▸ ha : allowed_file f.filename = false)]
        exact Or.inr ⟨rfl, rfl, rfl⟩

/-- Helper: no request ever issues more than one outbound call. -/
theorem transcribe_audio_calls_le_one (env : Option String) (req : HttpRequest)
    (net : Except String UpstreamResponse) :
    (transcribe_audio env req net).2.length ≤ 1 := by
  rcases hl : req.files.lookup "audio" with _ | f
  · rw [transcribe_audio_no_file env req net hl]
    simp
  · by_cases he : f.filename = ""
    · rw [transcribe_audio_empty_name env req net f hl he]
      simp
    · by_cases ha : allowed_file f.filename = true
      · by_cases ht : truthy (resolved_token env req) = true
        · rw [transcribe_audio_valid env req net f hl he ha ht, forward_to_hf_calls]
          simp
        · rw [transcribe_audio_no_token env req net f hl he ha
            (Bool.not_eq_true _ ▸ ht : truthy (resolved_token env req) = false)]
          simp
      · rw [transcribe_audio_bad_ext env req net f hl he
            (Bool.not_eq_true _ ▸ ha : allowed_file f.filename = false)]
        simp

/-- Claim C2: for every non-200 upstream response, `/transcribe` returns a
failure envelope whose error message is the fixed invalid-token string at
status 401, the fixed model-loading string at status 503, and the upstream
body verbatim at every other non-200 status; the status code forwarded to
the caller equals the upstream status code. -/
theorem C2_upstream_error_mapping (env : Option String) (req : HttpRequest)
    (net : Except String UpstreamResponse) (f : UploadedFile)
    (resp : UpstreamResponse)
    (hf : req.files.lookup "audio" = some f) (hn : f.filename ≠ "")
    (ha : allowed_file f.filename = true)
    (ht : truthy (resolved_token env req) = true)
    (hnet : net = Except.ok resp) (hcode : resp.status_code ≠ 200) :
    (transcribe_audio env req net).1.status = resp.status_code ∧
    (transcribe_audio env req net).1.body.lookup "success" = some (Json.bool false) ∧
    (resp.status_code = 401 →
      (transcribe_audio env req net).1.body.lookup "error"
        = some (Json.str INVALID_TOKEN_ERROR)) ∧
    (resp.status_code = 503 →
      (transcribe_audio env req net).1.body.lookup "error"
        = some (Json.str MODEL_LOADING_ERROR)) ∧
    (resp.status_code ≠ 401 → resp.status_code ≠ 503 →
      (transcribe_audio env req net).1.body.lookup "error"
        = some (Json.str resp.text)) := by
  subst hnet
  rw [transcribe_audio_valid env req _ f hf hn ha ht,
    forward_to_hf_non_200 _ _ resp hcode]
  refine ⟨rfl, rfl, fun h401 => ?_, fun h503 => ?_, fun h401 h503 => ?_⟩
  · exact congrArg (fun s => some (Json.str s)) (if_pos h401)
  · have h401 : resp.status_code ≠ 401 := by rw [h503]; decide
    exact congrArg (fun s => some (Json.str s))
      ((if_neg h401).trans (if_pos h503))
  · exact congrArg (fun s => some (Json.str s))
      ((if_neg h401).trans (if_neg h503))

/-- Claim C2 witness: a 418 upstream response is forwarded with its body
verbatim as the error message. -/
theorem C2_upstream_error_mapping_witness :
    (transcribe_audio (some "tok") ⟨[("audio", ⟨"a.mp3", [1]⟩)], []⟩
        (Except.ok ⟨418, "teapot", Except.error "x"⟩)).1.status = 418 ∧
    (transcribe_audio (some "tok") ⟨[("audio", ⟨"a.mp3", [1]⟩)], []⟩
        (Except.ok ⟨418, "teapot", Except.error "x"⟩)).1.body.lookup "error"
      = some (Json.str "teapot") := by
  have h := C2_upstream_error_mapping (some "tok") ⟨[("audio", ⟨"a.mp3", [1]⟩)], []⟩
    (Except.ok ⟨418, "teapot", Except.error "x"⟩) ⟨"a.mp3", [1]⟩
    ⟨418, "teapot", Except.error "x"⟩ rfl (by decide) rfl rfl rfl (by decide)
  exact ⟨h.1, h.2.2.2.2 (by decide) (by decide)⟩

/-- Claim C3: the credential used for the outbound call is the environment
token when it is set (non-empty), otherwise the per-request form token;
when neither exists the request fails 400 with the guidance message and no
call is made; and every request issues at most one outbound call, exactly
one when validation passes and a credential resolves. -/
theorem C3_credential_resolution (env : Option String) (req : HttpRequest)
    (net : Except String UpstreamResponse) :
    (transcribe_audio env req net).2.length ≤ 1 ∧
    (∀ f, req.files.lookup "audio" = some f → f.filename ≠ "" →
      allowed_file f.filename = true →
      ((truthy env = true →
          (transcribe_audio env req net).2.map OutboundCall.token = [env.getD ""]) ∧
       (truthy env = false → truthy (req.form.lookup "hf_token") = true →
          (transcribe_audio env req net).2.map OutboundCall.token
            = [(req.form.lookup "hf_token").getD ""]) ∧
       (truthy env = false → truthy (req.form.lookup "hf_token") = false →
          (transcribe_audio env req net).1.status = 400 ∧
          (transcribe_audio env req net).1.body.lookup "error"
            = some (Json.str TOKEN_REQUIRED_ERROR) ∧
          (transcribe_audio env req net).2 = []))) := by
  refine ⟨transcribe_audio_calls_le_one env req net, fun f hf hn ha => ⟨?_, ?_, ?_⟩⟩
  · intro henv
    have hres : resolved_token env req = env := by
      unfold resolved_token
      rw [if_pos henv]
    have ht : truthy (resolved_token env req) = true := by
      rw [hres]; exact henv
    rw [transcribe_audio_valid env req net f hf hn ha ht, forward_to_hf_calls]
    simp [hres]
  · intro henv hform
    have hres : resolved_token env req = req.form.lookup "hf_token" := by
      unfold resolved_token
      rw [if_neg (by simp [henv])]
    have ht : truthy (resolved_token env req) = true := by
      rw [hres]; exact hform
    rw [transcribe_audio_valid env req net f hf hn ha ht, forward_to_hf_calls]
    simp [hres]
  · intro henv hform
    have hres : resolved_token env req = req.form.lookup "hf_token" := by
      unfold resolved_token
      rw [if_neg (by simp [henv])]
    have ht : truthy (resolved_token env req) = false := by
      rw [hres]; exact hform
    rw [transcribe_audio_no_token env req net f hf hn ha ht]
    exact ⟨rfl, rfl, rfl⟩

/-- Claim C3 witness: with both an environment token and a form token the
call uses the environment one; with neither, 400 and no call. -/
theorem C3_credential_resolution_witness :
    (transcribe_audio (some "envtok") ⟨[("audio", ⟨"a.mp3", [1]⟩)], [("hf_token", "formtok")]⟩
        (Except.error "boom")).2.map OutboundCall.token = ["envtok"] ∧
    (transcribe_audio none ⟨[("audio", ⟨"a.mp3", [1]⟩)], []⟩
        (Except.error "boom")).1.status = 400 ∧
    (transcribe_audio none ⟨[("audio", ⟨"a.mp3", [1]⟩)], []⟩
        (Except.error "boom")).2 = [] := by
  have h1 := ((C3_credential_resolution (some "envtok")
    ⟨[("audio", ⟨"a.mp3", [1]⟩)], [("hf_token", "formtok")]⟩
    (Except.error "boom")).2 ⟨"a.mp3", [1]⟩ rfl (by decide) rfl).1 rfl
  have h2 := ((C3_credential_resolution none ⟨[("audio", ⟨"a.mp3", [1]⟩)], []⟩
    (Except.error "boom")).2 ⟨"a.mp3", [1]⟩ rfl (by decide) rfl).2.2 rfl rfl
  exact ⟨h1, h2.1, h2.2.2⟩

/-- Claim C8: every exception raised inside the pipeline — the outbound
call raising (e.g. its timeout of 30 units expiring) or the response body
failing to parse — is caught at the top level and returned as HTTP 500
with a failure envelope whose error string is exactly the exception
message and nothing else (no stack trace); the outbound call, when one is
made, carries the fixed 30-unit timeout. -/
theorem C8_exceptions_become_500 (env : Option String) (req : HttpRequest)
    (net : Except String UpstreamResponse) (f : UploadedFile)
    (hf : req.files.lookup "audio" = some f) (hn : f.filename ≠ "")
    (ha : allowed_file f.filename = true)
    (ht : truthy (resolved_token env req) = true) (e : String) :
    (net = Except.error e →
      (transcribe_audio env req net).1
        = ⟨500, [("success", Json.bool false), ("error", Json.str e)]⟩) ∧
    (∀ resp, net = Except.ok resp → resp.status_code = 200 →
      resp.body_json = Except.error e →
      (transcribe_audio env req net).1
        = ⟨500, [("success", Json.bool false), ("error", Json.str e)]⟩) ∧
    (∀ c, c ∈ (transcribe_audio env req net).2 →
      c.timeout = 30 ∧ c.url = HF_API_URL) := by
  refine ⟨?_, ?_, ?_⟩
  · intro hnet
    subst hnet
    rw [transcribe_audio_valid env req _ f hf hn ha ht, forward_to_hf_net_error]
  · intro resp hnet h200 hj
    subst hnet
    rw [transcribe_audio_valid env req _ f hf hn ha ht,
      forward_to_hf_bad_json _ _ resp e h200 hj]
  · intro c hc
    rw [transcribe_audio_valid env req net f hf hn ha ht, forward_to_hf_calls] at hc
    rcases List.mem_singleton.mp hc with rfl
    exact ⟨rfl, rfl⟩

/-- Claim C8 witness: a raised timeout at a concrete valid request yields
the 500 envelope with the exception text, and the attempted call had
timeout 30. -/
theorem C8_exceptions_become_500_witness :
    (transcribe_audio (some "tok") ⟨[("audio", ⟨"a.mp3", [1]⟩)], []⟩
        (Except.error "HTTPSConnectionPool: Read timed out. (read timeout=30)")).1
      = ⟨500, [("success", Json.bool false),
               ("error", Json.str "HTTPSConnectionPool: Read timed out. (read timeout=30)")]⟩ :=
  (C8_exceptions_become_500 (some "tok") ⟨[("audio", ⟨"a.mp3", [1]⟩)], []⟩
    (Except.error "HTTPSConnectionPool: Read timed out. (read timeout=30)")
    ⟨"a.mp3", [1]⟩ rfl (by decide) rfl rfl
    "HTTPSConnectionPool: Read timed out. (read timeout=30)").1 rfl

/-- Claim C9: a 200 upstream response whose body is not valid JSON does not
become an empty-text success: the decode error propagates to the top-level
handler and the caller receives HTTP 500 with `success = false`, the decode
message as the error string, and no `text` field. -/
theorem C9_invalid_json_500 (env : Option String) (req : HttpRequest)
    (net : Except String UpstreamResponse) (f : UploadedFile)
    (hf : req.files.lookup "audio" = some f) (hn : f.filename ≠ "")
    (ha : allowed_file f.filename = true)
    (ht : truthy (resolved_token env req) = true)
    (resp : UpstreamResponse) (msg : String)
    (hnet : net = Except.ok resp) (h200 : resp.status_code = 200)
    (hj : resp.body_json = Except.error msg) :
    (transcribe_audio env req net).1.status = 500 ∧
    (transcribe_audio env req net).1.body.lookup "success" = some (Json.bool false) ∧
    (transcribe_audio env req net).1.body.lookup "error" = some (Json.str msg) ∧
    (transcribe_audio env req net).1.body.lookup "text" = none := by
  subst hnet
  rw [transcribe_audio_valid env req _ f hf hn ha ht,
    forward_to_hf_bad_json _ _ resp msg h200 hj]
  exact ⟨rfl, rfl, rfl, rfl⟩

/-- Claim C9 witness. -/
theorem C9_invalid_json_500_witness :
    (transcribe_audio (some "tok") ⟨[("audio", ⟨"a.mp3", [1]⟩)], []⟩
        (Except.ok ⟨200, "<html>", Except.error "Expecting value: line 1 column 1 (char 0)"⟩)).1.status
      = 500 ∧
    (transcribe_audio (some "tok") ⟨[("audio", ⟨"a.mp3", [1]⟩)], []⟩
        (Except.ok ⟨200, "<html>", Except.error "Expecting value: line 1 column 1 (char 0)"⟩)).1.body.lookup "error"
      = some (Json.str "Expecting value: line 1 column 1 (char 0)") := by
  have h := C9_invalid_json_500 (some "tok") ⟨[("audio", ⟨"a.mp3", [1]⟩)], []⟩
    (Except.ok ⟨200, "<html>", Except.error "Expecting value: line 1 column 1 (char 0)"⟩)
    ⟨"a.mp3", [1]⟩ rfl (by decide) rfl rfl
    ⟨200, "<html>", Except.error "Expecting value: line 1 column 1 (char 0)"⟩
    "Expecting value: line 1 column 1 (char 0)" rfl rfl rfl
  exact ⟨h.1, h.2.2.1⟩

/-- Claim C10: an environment token equal to the empty string behaves
exactly as an absent one: `/health` reports `has_token = false`, the whole
`/transcribe` handler is extensionally the same as with no environment
token, and with no truthy form token either the request fails 400 with the
guidance message and no outbound call. -/
theorem C10_empty_env_token (req : HttpRequest)
    (net : Except String UpstreamResponse) :
    (health_check (some "")).lookup "has_token" = some (Json.bool false) ∧
    transcribe_audio (some "") req net = transcribe_audio none req net ∧
    (∀ f, req.files.lookup "audio" = some f → f.filename ≠ "" →
      allowed_file f.filename = true →
      truthy (req.form.lookup "hf_token") = false →
      transcribe_audio (some "") req net
        = (⟨400, [("success", Json.bool false), ("error", Json.str TOKEN_REQUIRED_ERROR),
                  ("get_token", Json.str "https://huggingface.co/settings/tokens")]⟩, [])) := by
  refine ⟨rfl, rfl, ?_⟩
  · intro f hf hn ha hform
    have ht : truthy (resolved_token (some "") req) = false := by
      unfold resolved_token
      rw [if_neg (by decide)]
      exact hform
    exact transcribe_audio_no_token (some "") req net f hf hn ha ht

/-- Claim C10 witness: with `HF_TOKEN = ""` and no form token, a valid
upload is rejected 400 with the guidance message. -/
theorem C10_empty_env_token_witness :
    (health_check (some "")).lookup "has_token" = some (Json.bool false) ∧
    transcribe_audio (some "") ⟨[("audio", ⟨"a.mp3", [1]⟩)], []⟩ (Except.error "x")
      = (⟨400, [("success", Json.bool false), ("error", Json.str TOKEN_REQUIRED_ERROR),
                ("get_token", Json.str "https://huggingface.co/settings/tokens")]⟩, []) :=
  ⟨(C10_empty_env_token ⟨[("audio", ⟨"a.mp3", [1]⟩)], []⟩ (Except.error "x")).1,
   (C10_empty_env_token ⟨[("audio", ⟨"a.mp3", [1]⟩)], []⟩ (Except.error "x")).2.2
     ⟨"a.mp3", [1]⟩ rfl (by decide) rfl rfl⟩

/-- Claim C7 counterexample: the 401 error message is the fixed string
`Invalid Hugging Face token`; it is independent of the supplied token, but
it DOES contain the literal supplied token whenever the token happens to be
a substring of that constant — here the supplied form token is the string
`token`, which occurs in the message. So the universally quantified claim
"the message does not contain the literal supplied token" fails at this
input. -/
theorem C7_counterexample :
    (transcribe_audio none ⟨[("audio", ⟨"a.mp3", [1]⟩)], [("hf_token", "token")]⟩
        (Except.ok ⟨401, "unauthorized", Except.error "x"⟩)).1.body.lookup "error"
      = some (Json.str INVALID_TOKEN_ERROR) ∧
    (transcribe_audio none ⟨[("audio", ⟨"a.mp3", [1]⟩)], [("hf_token", "token")]⟩
        (Except.ok ⟨401, "unauthorized", Except.error "x"⟩)).2.map OutboundCall.token
      = ["token"] ∧
    str_contains INVALID_TOKEN_ERROR "token" = true :=
  ⟨rfl, rfl, rfl⟩

/-- Claim C7 (amended): for every supplied token, through either channel —
an environment-configured token or a per-request `hf_token` form field —
when the upstream service returns status 401 the client-visible response
is fixed: any two credential configurations that resolve a token (same
uploaded file, arbitrary environment tokens, arbitrary form fields on each
side) produce the identical response, with status 401 and the constant
invalid-token message; so the message is independent of the supplied
token, and can contain it only in the degenerate sense that the token is a
substring of that constant. -/
theorem C7_fixed_401_message (env1 env2 : Option String)
    (req1 req2 : HttpRequest) (f : UploadedFile) (resp : UpstreamResponse)
    (hf1 : req1.files.lookup "audio" = some f)
    (hf2 : req2.files.lookup "audio" = some f)
    (hn : f.filename ≠ "") (ha : allowed_file f.filename = true)
    (ht1 : truthy (resolved_token env1 req1) = true)
    (ht2 : truthy (resolved_token env2 req2) = true)
    (h401 : resp.status_code = 401) :
    (transcribe_audio env1 req1 (Except.ok resp)).1
      = (transcribe_audio env2 req2 (Except.ok resp)).1 ∧
    (transcribe_audio env1 req1 (Except.ok resp)).1.status = 401 ∧
    (transcribe_audio env1 req1 (Except.ok resp)).1.body.lookup "error"
      = some (Json.str INVALID_TOKEN_ERROR) := by
  have h200 : resp.status_code ≠ 200 := by
    rw [h401]; decide
  rw [transcribe_audio_valid env1 req1 _ f hf1 hn ha ht1,
    transcribe_audio_valid env2 req2 _ f hf2 hn ha ht2,
    forward_to_hf_non_200 ((resolved_token env1 req1).getD "") f.content resp h200,
    forward_to_hf_non_200 ((resolved_token env2 req2).getD "") f.content resp h200]
  refine ⟨rfl, h401, ?_⟩
  exact congrArg (fun s => some (Json.str s)) (if_pos h401)

/-- Claim C7 (amended) witness: an environment-token run and a
form-token run (the form channel, with the token `"token"` of the
counterexample) produce the identical 401 response with the fixed
message. -/
theorem C7_fixed_401_message_witness :
    (transcribe_audio (some "hf_aaa") ⟨[("audio", ⟨"a.mp3", [1]⟩)], []⟩
        (Except.ok ⟨401, "denied", Except.error "x"⟩)).1
      = (transcribe_audio none ⟨[("audio", ⟨"a.mp3", [1]⟩)], [("hf_token", "token")]⟩
          (Except.ok ⟨401, "denied", Except.error "x"⟩)).1 ∧
    (transcribe_audio (some "hf_aaa") ⟨[("audio", ⟨"a.mp3", [1]⟩)], []⟩
        (Except.ok ⟨401, "denied", Except.error "x"⟩)).1.body.lookup "error"
      = some (Json.str INVALID_TOKEN_ERROR) := by
  have h := C7_fixed_401_message (some "hf_aaa") none
    ⟨[("audio", ⟨"a.mp3", [1]⟩)], []⟩
    ⟨[("audio", ⟨"a.mp3", [1]⟩)], [("hf_token", "token")]⟩
    ⟨"a.mp3", [1]⟩ ⟨401, "denied", Except.error "x"⟩
    rfl rfl (by decide) rfl rfl rfl rfl
  exact ⟨h.1, h.2.2⟩

/-- Claim C1 counterexample: the claim sorts bodies into object /
non-empty sequence of objects / non-empty sequence of plain values /
everything else (empty text). The body `[{"text": "hi"}, 42]` is a mixed
non-empty sequence — neither a sequence of objects nor a sequence of plain
values — so the claim as worded assigns it the empty string
(`claimed_normalize`), but the code only inspects the FIRST element and
returns `"hi"` (`normalize_result`). -/
theorem C1_counterexample :
    claimed_normalize (Json.arr [Json.obj [("text", Json.str "hi")], Json.num 42])
      = Json.str "" ∧
    normalize_result (Json.arr [Json.obj [("text", Json.str "hi")], Json.num 42])
      = Json.str "hi" ∧
    Json.str "" ≠ Json.str "hi" :=
  ⟨rfl, rfl, fun h => absurd (congrArg pyStr h) (by decide)⟩

/-- Claim C1 (amended): normalization of a 200 body depends only on the
shape of the body and of its FIRST element: the `text` field (defaulting to
the empty string) when the body is an object, or a non-empty sequence whose
first element is an object; the Python string form of the first element
when the body is a non-empty sequence whose first element is not an object;
the empty string for an empty sequence and for every non-object,
non-sequence value. Through the pipeline, a 200 upstream response with
parsed body `j` yields a 200 success response whose `text` field is that
normalization. -/
theorem C1_response_normalization (j : Json) :
    (∀ fields, j = Json.obj fields →
      normalize_result j = (fields.lookup "text").getD (Json.str "")) ∧
    (∀ fields rest, j = Json.arr (Json.obj fields :: rest) →
      normalize_result j = (fields.lookup "text").getD (Json.str "")) ∧
    (∀ v rest, j = Json.arr (v :: rest) → isObjJson v = false →
      normalize_result j = Json.str (pyStr v)) ∧
    (j = Json.arr [] ∨ (isObjJson j = false ∧ isArrJson j = false) →
      normalize_result j = Json.str "") ∧
    (∀ env req net f resp, req.files.lookup "audio" = some f →
      f.filename ≠ "" → allowed_file f.filename = true →
      truthy (resolved_token env req) = true →
      net = Except.ok resp → resp.status_code = 200 →
      resp.body_json = Except.ok j →
      (transcribe_audio env req net).1.status = 200 ∧
      (transcribe_audio env req net).1.body.lookup "text"
        = some (normalize_result j)) := by
  refine ⟨?_, ?_, ?_, ?_, ?_⟩
  · intro fields h
    subst h
    rfl
  · intro fields rest h
    subst h
    rfl
  · intro v rest h hv
    subst h
    cases v <;> first | rfl | simp [isObjJson] at hv
  · rintro (h | ⟨h1, h2⟩)
    · subst h
      rfl
    · cases j <;> simp_all [isObjJson, isArrJson, normalize_result]
  · intro env req net f resp hf hn ha ht hnet h200 hj
    subst hnet
    rw [transcribe_audio_valid env req _ f hf hn ha ht,
      forward_to_hf_ok _ _ resp j h200 hj]
    exact ⟨rfl, rfl⟩

/-- Claim C1 witness: the four concrete examples of the claim, and the
end-to-end 200 path on `{"text": "hello"}`. -/
theorem C1_response_normalization_witness :
    normalize_result (Json.obj [("text", Json.str "hello")]) = Json.str "hello" ∧
    normalize_result (Json.arr [Json.obj [("text", Json.str "hi")]]) = Json.str "hi" ∧
    normalize_result (Json.arr [Json.str "raw"]) = Json.str "raw" ∧
    normalize_result (Json.obj []) = Json.str "" ∧
    normalize_result (Json.arr []) = Json.str "" ∧
    (transcribe_audio (some "tok") ⟨[("audio", ⟨"a.mp3", [1]⟩)], []⟩
        (Except.ok ⟨200, "raw body", Except.ok (Json.obj [("text", Json.str "hello")])⟩)).1.body.lookup "text"
      = some (Json.str "hello") := by
  refine ⟨?_, ?_, ?_, ?_, ?_, ?_⟩
  · exact ((C1_response_normalization (Json.obj [("text", Json.str "hello")])).1
      [("text", Json.str "hello")] rfl).trans rfl
  · exact ((C1_response_normalization
      (Json.arr [Json.obj [("text", Json.str "hi")]])).2.1
      [("text", Json.str "hi")] [] rfl).trans rfl
  · exact ((C1_response_normalization (Json.arr [Json.str "raw"])).2.2.1
      (Json.str "raw") [] rfl rfl).trans rfl
  · exact ((C1_response_normalization (Json.obj [])).1 [] rfl).trans rfl
  · exact (C1_response_normalization (Json.arr [])).2.2.2.1 (Or.inl rfl)
  · exact (((C1_response_normalization (Json.obj [("text", Json.str "hello")])).2.2.2.2
      (some "tok") ⟨[("audio", ⟨"a.mp3", [1]⟩)], []⟩
      (Except.ok ⟨200, "raw body", Except.ok (Json.obj [("text", Json.str "hello")])⟩)
      ⟨"a.mp3", [1]⟩ ⟨200, "raw body", Except.ok (Json.obj [("text", Json.str "hello")])⟩
      rfl (by decide) rfl rfl rfl rfl rfl).2).trans rfl

end WhisperProxy
